import Mathlib

/-!
Verification development for the deliberations_wavre harvesting pipeline.

Shallow embedding of the incremental harvesting pipeline of the repository
(src/extraire_deliberations.py and src/pipeline_journalistique.py).
Network fetches are modelled as explicit inputs: a listing page is the list
of item cards the server returns for the corresponding offset, an item page
is the parsed title/body structure, and a fetch that raises is an explicit
error constructor. File system effects of the store are modelled as explicit
file states and operation traces.
-/

set_option maxHeartbeats 1000000

/-- Result of one HTTP fetch followed by BeautifulSoup parsing: either the
exception raised by requests/bs4 (carrying its message), or the parsed page
of type alpha. -/
inductive Telechargement (α : Type) where
  | erreur (message : String)
  | ok (page : α)

/-- One item card of a listing page (a div with class item-card, lines 64 and
72-79 of extraire_deliberations.py). The field holds the href of the first
anchor with class filled-link when that anchor exists and carries an href
attribute; none models a card whose anchor or href is absent. An empty href
string is kept distinct because Python tests its truthiness. -/
structure Carte where
  lien : Option String
deriving DecidableEq

/-- Line 78-79 of extraire_deliberations.py: a relative href is prefixed by
the site origin; an href already starting with http is kept unchanged. -/
def normaliserLien (h : String) : String :=
  if h.startsWith "http" then h else "https://www.deliberations.be" ++ h

/-- Lines 74-79: the normalized absolute link a card contributes, or none when
the card is skipped (no anchor, no href attribute, or empty href, all falsy
for the test at line 75). -/
def carteLien (c : Carte) : Option String :=
  match c.lien with
  | none => none
  | some h => if h = "" then none else some (normaliserLien h)

/-- One step of processing an accepted link, lines 82-85: the state is
(tous_les_liens, liens_vus, nouveaux_liens); a link already in liens_vus
leaves the state unchanged, otherwise it is appended to both lists and the
new-link counter is incremented. -/
def etapeLien (etat : List String × List String × Nat) (u : String) :
    List String × List String × Nat :=
  if u ∈ etat.2.1 then etat
  else (etat.1 ++ [u], etat.2.1 ++ [u], etat.2.2 + 1)

/-- Processing of one card, lines 72-85: cards without an accepted link are
skipped, otherwise the seen-set step applies. -/
def traiterCarte (etat : List String × List String × Nat) (c : Carte) :
    List String × List String × Nat :=
  match carteLien c with
  | none => etat
  | some u => etapeLien etat u

/-- The links one fetched listing page contributes to the encounter stream: a
fetch that raised contributes nothing (the loop breaks before reading cards),
otherwise the accepted links of its cards in card order. -/
def liensDePage : Telechargement (List Carte) → List String
  | .erreur _ => []
  | .ok cartes => cartes.filterMap carteLien

/-- Concatenated encounter stream of a sequence of listing pages. -/
def fluxLiens : List (Telechargement (List Carte)) → List String
  | [] => []
  | p :: reste => liensDePage p ++ fluxLiens reste

/-- Keep a URL only when it was not kept before (first occurrence wins). -/
def ajouterSiNouveau (acc : List String) (u : String) : List String :=
  if u ∈ acc then acc else acc ++ [u]

/-- First-occurrence deduplication of a stream of URLs. -/
def dedupPremier (us : List String) : List String :=
  us.foldl ajouterSiNouveau []

/-- Result of one Link Harvester run: the harvested link sequence, how many
listing pages were fetched (loop iterations), and how many of the fetched
pages yielded at least one new link. The last two fields are bookkeeping of
the embedding (the Python loop prints them but does not return them). -/
structure EtatRecolte where
  liens : List String
  visites : Nat
  productives : Nat
deriving DecidableEq

/-- The while-True pagination loop of extraire_liens_deliberations, lines
49-104 of extraire_deliberations.py. The input list holds the pages the
server serves for offsets 0, 20, 40, ...; a fetch past the end of the list is
a page with zero cards (the listing is exhausted), on which the loop breaks
at line 69. A fetch error breaks at line 104; a page with zero cards breaks
at line 69; a page with zero new links raises the consecutive-empty counter
and the loop breaks at line 94 once it reaches two; a page with a new link
resets the counter (line 96). -/
def boucleRecolte : List (Telechargement (List Carte)) → List String → List String → Nat →
    EtatRecolte
  | [], liens, _, _ => ⟨liens, 1, 0⟩
  | .erreur _ :: _, liens, _, _ => ⟨liens, 1, 0⟩
  | .ok cartes :: reste, liens, vus, vides =>
    if cartes = [] then ⟨liens, 1, 0⟩
    else
      let t := cartes.foldl traiterCarte (liens, vus, 0)
      if t.2.2 = 0 then
        if vides + 1 ≥ 2 then ⟨t.1, 1, 0⟩
        else
          let r := boucleRecolte reste t.1 t.2.1 (vides + 1)
          ⟨r.liens, r.visites + 1, r.productives⟩
      else
        let r := boucleRecolte reste t.1 t.2.1 0
        ⟨r.liens, r.visites + 1, r.productives + 1⟩

/-- extraire_liens_deliberations, lines 37-107: the loop starts with empty
tous_les_liens, empty liens_vus and a zero consecutive-empty counter. -/
def extraire_liens_deliberations (pages : List (Telechargement (List Carte))) : EtatRecolte :=
  boucleRecolte pages [] [] 0

theorem foldTraiter_eq (cartes : List Carte) (etat : List String × List String × Nat) :
    cartes.foldl traiterCarte etat = (cartes.filterMap carteLien).foldl etapeLien etat := by
  induction cartes generalizing etat with
  | nil => rfl
  | cons c reste ih =>
    cases h : carteLien c with
    | none => simp [List.filterMap_cons, h, List.foldl_cons, traiterCarte, ih]
    | some u => simp [List.filterMap_cons, h, List.foldl_cons, traiterCarte, ih]

theorem etapes_spec (us : List String) (l v : List String) (n : Nat)
    (inv : ∀ x, x ∈ v ↔ x ∈ l) :
    (us.foldl etapeLien (l, v, n)).1 = us.foldl ajouterSiNouveau l
    ∧ (∀ x, x ∈ (us.foldl etapeLien (l, v, n)).2.1 ↔ x ∈ (us.foldl etapeLien (l, v, n)).1) := by
  induction us generalizing l v n with
  | nil => exact ⟨rfl, inv⟩
  | cons u reste ih =>
    by_cases hm : u ∈ v
    · have hl : u ∈ l := (inv u).mp hm
      have h1 : etapeLien (l, v, n) u = (l, v, n) := by simp [etapeLien, hm]
      have h2 : ajouterSiNouveau l u = l := by simp [ajouterSiNouveau, hl]
      simpa [h1, h2] using ih l v n inv
    · have hl : u ∉ l := fun hx => hm ((inv u).mpr hx)
      have h1 : etapeLien (l, v, n) u = (l ++ [u], v ++ [u], n + 1) := by
        simp [etapeLien, hm]
      have h2 : ajouterSiNouveau l u = l ++ [u] := by simp [ajouterSiNouveau, hl]
      have inv2 : ∀ x, x ∈ v ++ [u] ↔ x ∈ l ++ [u] := by
        intro x
        simp only [List.mem_append, List.mem_singleton]
        exact or_congr_left (inv x)
      simpa [h1, h2] using ih (l ++ [u]) (v ++ [u]) (n + 1) inv2

theorem ajouterTous_nodup (us : List String) (l : List String) (h : l.Nodup) :
    (us.foldl ajouterSiNouveau l).Nodup := by
  induction us generalizing l with
  | nil => exact h
  | cons u reste ih =>
    by_cases hm : u ∈ l
    · simpa [ajouterSiNouveau, hm] using ih l h
    · have h2 : (l ++ [u]).Nodup := by
        rw [List.nodup_append]
        exact ⟨h, List.nodup_singleton u, by
          intro x hx hxu
          rw [List.mem_singleton] at hxu
          exact hm (hxu ▸ hx)⟩
      simpa [ajouterSiNouveau, hm] using ih (l ++ [u]) h2
theorem boucle_liens_spec (pages : List (Telechargement (List Carte)))
    (l v : List String) (vides : Nat) (inv : ∀ x, x ∈ v ↔ x ∈ l) :
    (boucleRecolte pages l v vides).liens
      = (fluxLiens (pages.take (boucleRecolte pages l v vides).visites)).foldl
          ajouterSiNouveau l := by
  induction pages generalizing l v vides with
  | nil => simp [boucleRecolte, fluxLiens]
  | cons p reste ih =>
    cases p with
    | erreur e => simp [boucleRecolte, fluxLiens, liensDePage]
    | ok cartes =>
      by_cases hc : cartes = []
      · simp [boucleRecolte, hc, fluxLiens, liensDePage]
      · have hspec := etapes_spec (cartes.filterMap carteLien) l v 0 inv
        rw [← foldTraiter_eq] at hspec
        obtain ⟨hliens, hinv⟩ := hspec
        by_cases hn : (cartes.foldl traiterCarte (l, v, 0)).2.2 = 0
        · by_cases hv : vides + 1 ≥ 2
          · simp only [boucleRecolte, if_neg hc, if_pos hn, if_pos hv]
            simp only [List.take_succ_cons, List.take_zero, fluxLiens, liensDePage,
              List.foldl_append, List.foldl_nil]
            exact hliens
          · have := ih _ _ (vides + 1) hinv
            simp only [boucleRecolte, if_neg hc, if_pos hn, if_neg hv]
            simp only [List.take_succ_cons, fluxLiens, liensDePage, List.foldl_append]
            rw [← hliens]
            exact this
        · have := ih _ _ 0 hinv
          simp only [boucleRecolte, if_neg hc, if_neg hn]
          simp only [List.take_succ_cons, fluxLiens, liensDePage, List.foldl_append]
          rw [← hliens]
          exact this

theorem borne_boucle (pages : List (Telechargement (List Carte)))
    (l v : List String) (vides : Nat) (hv : vides ≤ 1) :
    (boucleRecolte pages l v vides).visites + vides
      ≤ 2 * (boucleRecolte pages l v vides).productives + 2 := by
  induction pages generalizing l v vides with
  | nil => simp [boucleRecolte]; omega
  | cons p reste ih =>
    cases p with
    | erreur e => simp [boucleRecolte]; omega
    | ok cartes =>
      by_cases hc : cartes = []
      · simp [boucleRecolte, hc]; omega
      · by_cases hn : (cartes.foldl traiterCarte (l, v, 0)).2.2 = 0
        · by_cases hd : vides + 1 ≥ 2
          · simp only [boucleRecolte, if_neg hc, if_pos hn, if_pos hd]
            omega
          · have hv2 : vides + 1 ≤ 1 := by omega
            have := ih (cartes.foldl traiterCarte (l, v, 0)).1
              (cartes.foldl traiterCarte (l, v, 0)).2.1 (vides + 1) hv2
            simp only [boucleRecolte, if_neg hc, if_pos hn, if_neg hd]
            omega
        · have := ih (cartes.foldl traiterCarte (l, v, 0)).1
            (cartes.foldl traiterCarte (l, v, 0)).2.1 0 (by omega)
          simp only [boucleRecolte, if_neg hc, if_neg hn]
          omega

/-- C6: for every sequence of listing pages, the Link Harvester returns the
first-occurrence deduplication of the stream of links it encountered on the
pages it visited: the output has no repeated URL, even when the same card
appears on two different offset pages, and keeps first-seen order. -/
theorem dedup_et_ordre_recolte (pages : List (Telechargement (List Carte))) :
    (extraire_liens_deliberations pages).liens
      = dedupPremier (fluxLiens (pages.take (extraire_liens_deliberations pages).visites))
    ∧ (extraire_liens_deliberations pages).liens.Nodup := by
  constructor
  · exact boucle_liens_spec pages [] [] 0 (by simp)
  · show (boucleRecolte pages [] [] 0).liens.Nodup
    rw [boucle_liens_spec pages [] [] 0 (by simp)]
    exact ajouterTous_nodup _ [] List.nodup_nil

theorem arret_cartes_vides (avant apres : List (Telechargement (List Carte)))
    (l v : List String) (vides : Nat) :
    (boucleRecolte (avant ++ Telechargement.ok [] :: apres) l v vides).visites
      ≤ avant.length + 1 := by
  induction avant generalizing l v vides with
  | nil => simp [boucleRecolte]
  | cons p reste ih =>
    cases p with
    | erreur e =>
      simp only [List.cons_append, boucleRecolte, List.length_cons]
      omega
    | ok cartes =>
      by_cases hc : cartes = []
      · simp only [List.cons_append, boucleRecolte, if_pos hc, List.length_cons]
        omega
      · by_cases hn : (cartes.foldl traiterCarte (l, v, 0)).2.2 = 0
        · by_cases hd : vides + 1 ≥ 2
          · simp only [List.cons_append, boucleRecolte, if_neg hc, if_pos hn, if_pos hd,
              List.length_cons]
            omega
          · have := ih (cartes.foldl traiterCarte (l, v, 0)).1
              (cartes.foldl traiterCarte (l, v, 0)).2.1 (vides + 1)
            simp only [List.cons_append, boucleRecolte, if_neg hc, if_pos hn, if_neg hd,
              List.length_cons, List.append_eq]
            omega
        · have := ih (cartes.foldl traiterCarte (l, v, 0)).1
            (cartes.foldl traiterCarte (l, v, 0)).2.1 0
          simp only [List.cons_append, boucleRecolte, if_neg hc, if_neg hn, List.length_cons,
            List.append_eq]
          omega

/-- C7 (amended): the Link Harvester always terminates, within at most
2 k + 2 page iterations where k is the number of visited pages that yielded
at least one new link (each productive page may be preceded by one
zero-new-link page, plus the final stop); and a page with zero item cards
stops the loop immediately, wherever it occurs: from every loop state
(accumulated links, seen set, empty-page counter) a zero-cards page ends the
call in that single iteration returning the links collected so far, and a
run over a sequence whose position i holds a zero-cards page performs at
most i + 1 page iterations. The bound k + 2 stated by the specification is
refuted by borne_pagination_contre below. -/
theorem borne_pagination (pages : List (Telechargement (List Carte))) :
    (extraire_liens_deliberations pages).visites
      ≤ 2 * (extraire_liens_deliberations pages).productives + 2
    ∧ (∀ (reste : List (Telechargement (List Carte))) (l v : List String) (vides : Nat),
        boucleRecolte (Telechargement.ok [] :: reste) l v vides = ⟨l, 1, 0⟩)
    ∧ ∀ avant apres : List (Telechargement (List Carte)),
        (extraire_liens_deliberations (avant ++ Telechargement.ok [] :: apres)).visites
          ≤ avant.length + 1 := by
  refine ⟨?_, ?_, ?_⟩
  · have := borne_boucle pages [] [] 0 (by omega)
    simpa [extraire_liens_deliberations] using this
  · intro reste l v vides
    simp [boucleRecolte]
  · intro avant apres
    exact arret_cartes_vides avant apres [] [] 0

/-- A seven-page listing in which pages holding only already-seen links
alternate with productive pages: three pages yield a new link, yet the loop
fetches seven pages before two consecutive zero-new-link pages occur. -/
def pagesAlternees : List (Telechargement (List Carte)) :=
  [Telechargement.ok [⟨some "/a"⟩], Telechargement.ok [⟨some "/a"⟩],
   Telechargement.ok [⟨some "/b"⟩], Telechargement.ok [⟨some "/a"⟩],
   Telechargement.ok [⟨some "/c"⟩], Telechargement.ok [⟨some "/a"⟩],
   Telechargement.ok [⟨some "/a"⟩]]

/-- C7 counterexample: on pagesAlternees the harvester performs 7 page
iterations while only 3 pages yield a new link, exceeding the claimed bound
of (pages with at least one new link) + 2 = 5. -/
theorem borne_pagination_contre :
    (extraire_liens_deliberations pagesAlternees).visites = 7
    ∧ (extraire_liens_deliberations pagesAlternees).productives = 3
    ∧ ¬ ((extraire_liens_deliberations pagesAlternees).visites
          ≤ (extraire_liens_deliberations pagesAlternees).productives + 2) := by
  decide

/-- One fetched and parsed item page (extraire_contenu_deliberation, lines
119-133 of extraire_deliberations.py): the stripped text of the first h1
element when one exists, and the newline-joined text of the article element
with id content when that element exists. -/
structure PageDelib where
  titreH1 : Option String
  articleContenu : Option String
deriving DecidableEq

/-- extraire_contenu_deliberation, lines 109-149: returns the dict literal
with the three keys url, titre and contenu. A fetch or parse exception is
caught by the try/except and converted into the dict with title Erreur and a
message embedding the exception text (lines 143-149); otherwise the title
falls back to the literal at line 125 and the body to the literal at line
133 when the expected elements are absent. -/
def extraire_contenu_deliberation (url : String) (t : Telechargement PageDelib) :
    List (String × String) :=
  match t with
  | .ok page =>
    let titreTexte := match page.titreH1 with
      | some s => s
      | none => "Titre non trouvé"
    let texte := match page.articleContenu with
      | some s => s
      | none => "Contenu non trouvé"
    [("url", url), ("titre", titreTexte), ("contenu", texte)]
  | .erreur e =>
    [("url", url), ("titre", "Erreur"),
     ("contenu", "Impossible d\x27extraire le contenu : " ++ e)]

/-- Lookup of one key of a record dict (first binding wins, as in a Python
dict whose keys are distinct). -/
def valeurChamp (k : String) : List (String × String) → Option String
  | [] => none
  | (k2, v) :: reste => if k2 = k then some v else valeurChamp k reste

/-- The extraction phase of main, lines 225-229 of extraire_deliberations.py:
one call of extraire_contenu_deliberation per harvested link, in harvested
order, each appending exactly one record. -/
def phaseExtraction (liens : List String) (contenus : String → Telechargement PageDelib) :
    List (List (String × String)) :=
  liens.map fun l => extraire_contenu_deliberation l (contenus l)

/-- C8: the Content Extractor never lets a fetch or parse exception escape: a
failing fetch yields exactly the record with title Erreur and a body
embedding the exception detail, and the extraction phase always produces one
record per link, so one failing item never reduces the number of records
produced for the other links. -/
theorem contenu_erreur_contenue :
    (∀ (url e : String),
      extraire_contenu_deliberation url (.erreur e)
        = [("url", url), ("titre", "Erreur"),
           ("contenu", "Impossible d\x27extraire le contenu : " ++ e)])
    ∧ ∀ (liens : List String) (contenus : String → Telechargement PageDelib),
        (phaseExtraction liens contenus).length = liens.length := by
  constructor
  · intro url e
    rfl
  · intro liens contenus
    simp [phaseExtraction]

/-- C10: for every input URL and every fetch outcome the extraction returns a
dict with exactly the keys url, titre and contenu in that order, and in both
the success branch and the exception branch the url key holds exactly the
input URL. -/
theorem forme_enregistrement (url : String) (t : Telechargement PageDelib) :
    (extraire_contenu_deliberation url t).map Prod.fst = ["url", "titre", "contenu"]
    ∧ valeurChamp "url" (extraire_contenu_deliberation url t) = some url := by
  cases t with
  | ok page => exact ⟨rfl, rfl⟩
  | erreur e => exact ⟨rfl, rfl⟩

/-- A parsed JSON value, as json.load returns it (dict insertion order kept,
keys of one object distinct). -/
inductive Json where
  | null
  | bool (b : Bool)
  | num (n : Int)
  | str (s : String)
  | arr (elems : List Json)
  | obj (champs : List (String × Json))

/-- Python dict.get on a parsed JSON object: the value bound to the key, or
none when the key is absent. -/
def chercherChamp (k : String) : List (String × Json) → Option Json
  | [] => none
  | (k2, v) :: reste => if k2 = k then some v else chercherChamp k reste

/-- Python truthiness of a parsed JSON value: None, False, 0, the empty
string, the empty list and the empty dict are falsy, everything else truthy. -/
def versVrai : Json → Bool
  | .null => false
  | .bool b => b
  | .num n => n != 0
  | .str s => s != ""
  | .arr elems => !elems.isEmpty
  | .obj champs => !champs.isEmpty

/-- State of the snapshot file as charger_derniere_seance observes it:
absent (path.exists() false), unreadable (OSError on open or read), present
but with bytes that do not decode as UTF-8 (the read inside json.load raises
UnicodeDecodeError), decodable text that is not JSON (json.JSONDecodeError),
or decoded JSON content. -/
inductive FichierEtat where
  | absent
  | erreurOuverture
  | erreurDecodage
  | jsonInvalide
  | contenu (j : Json)

/-- The uncaught Python exceptions charger_derniere_seance can raise. -/
inductive ErreurPython where
  | attributeError
  | unicodeDecodeError
deriving DecidableEq

/-- charger_derniere_seance, lines 31-45 of pipeline_journalistique.py. An
absent file returns the null pair (lines 33-34); OSError and
json.JSONDecodeError are the only exceptions caught, both returning the null
pair (lines 38-40); a UnicodeDecodeError raised while json.load reads a
non-UTF-8 file is neither of them and propagates uncaught; a JSON document
that is not a dict returns the null pair (line 45). When the document is a
dict, meta is donnees.get("seance") or the empty dict (line 43), and the
function calls meta.get: when the seance value is truthy but not a dict,
this .get call raises an uncaught AttributeError. -/
def charger_derniere_seance : FichierEtat → Except ErreurPython (Option Json × Option Json)
  | .absent => .ok (none, none)
  | .erreurOuverture => .ok (none, none)
  | .erreurDecodage => .error .unicodeDecodeError
  | .jsonInvalide => .ok (none, none)
  | .contenu j =>
    match j with
    | .obj champs =>
      let meta := match chercherChamp "seance" champs with
        | some v => if versVrai v then v else Json.obj []
        | none => Json.obj []
      match meta with
      | .obj mchamps => .ok (chercherChamp "id" mchamps, chercherChamp "nom" mchamps)
      | _ => .error .attributeError
    | _ => .ok (none, none)

/-- A Corpus Snapshot as sauvegarder_resultats builds it (lines 158-165 of
extraire_deliberations.py): export timestamp, session identifier and name,
and the ordered record dicts. -/
structure Snapshot where
  horodatage : String
  seanceId : Option String
  seanceNom : Option String
  deliberations : List (List (String × String))
deriving DecidableEq

/-- Encoding of an optional string as the JSON value json.dump writes. -/
def jsonDeOpt : Option String → Json
  | none => .null
  | some s => .str s

/-- The JSON document sauvegarder_resultats serializes (the export dict of
lines 158-165). -/
def versJson (s : Snapshot) : Json :=
  .obj [("exported_at", .str s.horodatage),
        ("seance", .obj [("id", jsonDeOpt s.seanceId), ("nom", jsonDeOpt s.seanceNom)]),
        ("deliberations", .arr (s.deliberations.map fun d => .obj (d.map fun kv => (kv.1, .str kv.2))))]

/-- Reading back a file written by sauvegarder_resultats yields exactly the
stored session id and name (as JSON values). -/
theorem charger_sur_snapshot (s : Snapshot) :
    charger_derniere_seance (.contenu (versJson s))
      = .ok (some (jsonDeOpt s.seanceId), some (jsonDeOpt s.seanceNom)) := by
  rfl

/-- The selected option of the seance selector (lines 26-29 of
extraire_deliberations.py): its value attribute and its title attribute,
each possibly absent. -/
structure OptionSeance where
  valeur : Option String
  titre : Option String
deriving DecidableEq

/-- The select element with id seance, when the listing page has one, and its
option with selected equal to selected, when one is marked. -/
structure SelecteurSeance where
  optionSelectionnee : Option OptionSeance
deriving DecidableEq

/-- The parsed landing listing page as detecter_seance_la_plus_recente reads
it (lines 18-26). -/
structure PageAccueil where
  selectSeance : Option SelecteurSeance
deriving DecidableEq

/-- detecter_seance_la_plus_recente, lines 11-35 of
extraire_deliberations.py. The body contains no try/except: an exception of
requests.get at line 18 propagates to the caller unchanged. On a fetched
page, a missing selector or a missing selected option falls through to the
null pair return at line 35; a selected option returns its value and title
attributes (line 32). -/
def detecter_seance_la_plus_recente (t : Telechargement PageAccueil) :
    Except String (Option String × Option String) :=
  match t with
  | .erreur e => .error e
  | .ok page =>
    match page.selectSeance with
    | some sel =>
      match sel.optionSelectionnee with
      | some opt => .ok (opt.valeur, opt.titre)
      | none => .ok (none, none)
    | none => .ok (none, none)

/-- C2 counterexample: a fetch error in session detection propagates as an
exception instead of producing the null pair (None, None): the function has
no try/except around requests.get. -/
theorem detection_leve_exception :
    detecter_seance_la_plus_recente (.erreur "ConnectionError")
      = .error "ConnectionError"
    ∧ detecter_seance_la_plus_recente (.erreur "ConnectionError")
      ≠ .ok (none, none) := by
  refine ⟨rfl, ?_⟩
  intro h
  exact Except.noConfusion h

/-- C2 (amended): a parse miss makes the detection return the null pair in
both of its shapes, a page without the seance selector and a page whose
selector has no selected option; a selected option returns exactly its value
and title attributes, so a successful fetch never raises; but a fetch error
is not caught and propagates to the caller as an exception. -/
theorem detection_degrade :
    (∀ e, detecter_seance_la_plus_recente (.erreur e) = .error e)
    ∧ (∀ page : PageAccueil, page.selectSeance = none →
        detecter_seance_la_plus_recente (.ok page) = .ok (none, none))
    ∧ (∀ (page : PageAccueil) (sel : SelecteurSeance),
        page.selectSeance = some sel → sel.optionSelectionnee = none →
        detecter_seance_la_plus_recente (.ok page) = .ok (none, none))
    ∧ (∀ (page : PageAccueil) (sel : SelecteurSeance) (opt : OptionSeance),
        page.selectSeance = some sel → sel.optionSelectionnee = some opt →
        detecter_seance_la_plus_recente (.ok page) = .ok (opt.valeur, opt.titre)) := by
  refine ⟨fun e => rfl, ?_, ?_, ?_⟩
  · intro page hp
    simp [detecter_seance_la_plus_recente, hp]
  · intro page sel hs ho
    simp [detecter_seance_la_plus_recente, hs, ho]
  · intro page sel opt hs ho
    simp [detecter_seance_la_plus_recente, hs, ho]

/-- Witness for detection_degrade: on a page whose seance selector exists but
marks no option as selected, the detection returns the null pair. -/
theorem detection_degrade_temoin :
    detecter_seance_la_plus_recente (.ok ⟨some ⟨none⟩⟩) = .ok (none, none) :=
  detection_degrade.2.2.1 ⟨some ⟨none⟩⟩ ⟨none⟩ rfl rfl

/-- Escaping of one character inside a JSON string, as json.dump applies it
to the characters relevant here. -/
def echapperCaractere (c : Char) : String :=
  if c = '\\' then "\\\\"
  else if c = '"' then "\\\""
  else if c = '\n' then "\\n"
  else String.singleton c

/-- Escaping of the characters of a JSON string. -/
def echapperListe : List Char → String
  | [] => ""
  | c :: reste => echapperCaractere c ++ echapperListe reste

/-- A JSON string literal: the escaped text between double quotes. -/
def citer (s : String) : String :=
  "\"" ++ echapperListe s.data ++ "\""

/-- Serialization of a nullable string field, as json.dump writes it. -/
def serialiserOptChaine : Option String → String
  | none => "null"
  | some s => citer s

/-- Serialization of one key/value pair of a record dict. -/
def serialiserPaire (kv : String × String) : String :=
  citer kv.1 ++ ": " ++ citer kv.2

/-- Serialization of the fields of one record dict. -/
def serialiserEnregistrement : List (String × String) → String
  | [] => ""
  | [kv] => serialiserPaire kv
  | kv :: reste => serialiserPaire kv ++ ", " ++ serialiserEnregistrement reste

/-- Serialization of the comma-separated record objects of the
deliberations array. -/
def serialiserEnregistrements : List (List (String × String)) → String
  | [] => ""
  | [d] => "\x7b" ++ serialiserEnregistrement d ++ "\x7d"
  | d :: reste =>
    "\x7b" ++ serialiserEnregistrement d ++ "\x7d, " ++ serialiserEnregistrements reste

/-- The serialized text of the export dict that json.dump produces at line
168 of extraire_deliberations.py (whitespace conventions aside, which no
claim depends on): a JSON object document that begins with an opening brace
and ends with a closing brace. -/
def serialiserSnapshot (s : Snapshot) : String :=
  "\x7b" ++ citer "exported_at" ++ ": " ++ citer s.horodatage ++ ", "
    ++ citer "seance" ++ ": \x7b" ++ citer "id" ++ ": " ++ serialiserOptChaine s.seanceId
    ++ ", " ++ citer "nom" ++ ": " ++ serialiserOptChaine s.seanceNom ++ "\x7d, "
    ++ citer "deliberations" ++ ": [" ++ serialiserEnregistrements s.deliberations ++ "]\x7d"

/-- One primitive file operation of the snapshot write. -/
inductive OpFichier where
  | tronquer (chemin : String)
  | ecrire (chemin : String) (donnees : String)
deriving DecidableEq

/-- The path an operation touches. -/
def cheminOp : OpFichier → String
  | .tronquer chemin => chemin
  | .ecrire chemin _ => chemin

/-- sauvegarder_resultats, lines 151-170 of extraire_deliberations.py, as the
sequence of file operations it performs on the snapshot path: open(nom, "w")
truncates the existing file in place, then json.dump writes the
serialization of the export dict into it. There is no write to a fresh file
followed by a move or replace. -/
def sauvegarder_resultats (horodatage : String)
    (deliberations : List (List (String × String)))
    (seanceId seanceNom : Option String) : List OpFichier :=
  [.tronquer "deliberations_wavre.json",
   .ecrire "deliberations_wavre.json"
     (serialiserSnapshot ⟨horodatage, seanceId, seanceNom, deliberations⟩)]

/-- Content of the snapshot file after one operation. -/
def appliquerOp (contenu : String) : OpFichier → String
  | .tronquer _ => ""
  | .ecrire _ donnees => contenu ++ donnees

/-- The successive file contents a reader can observe while a sequence of
operations runs: the state before any operation, then the state after each
prefix of the operations. -/
def etatsObservables (initial : String) : List OpFichier → List String
  | [] => [initial]
  | op :: reste => initial :: etatsObservables (appliquerOp initial op) reste

/-- Necessary condition for a text to parse as the defined snapshot shape, a
JSON object: its first character is an opening brace and its last character
a closing brace. -/
def estDocumentObjet (s : String) : Bool :=
  (s.data.head? == some '\x7b') && (s.data.getLast? == some '\x7d')

/-- C4 (amended): the snapshot write truncates the target file in place and
then writes the full serialization into it; the observable states are the
previous content, the empty truncated file, and the complete new document,
and every operation touches the final snapshot path directly (there is no
fresh-file-then-replace step). -/
theorem ecriture_en_place (horodatage : String)
    (deliberations : List (List (String × String)))
    (seanceId seanceNom : Option String) (precedent : String) :
    etatsObservables precedent
        (sauvegarder_resultats horodatage deliberations seanceId seanceNom)
      = [precedent, "",
         serialiserSnapshot ⟨horodatage, seanceId, seanceNom, deliberations⟩]
    ∧ (sauvegarder_resultats horodatage deliberations seanceId seanceNom).map cheminOp
      = ["deliberations_wavre.json", "deliberations_wavre.json"] := by
  exact ⟨rfl, rfl⟩

/-- C4 counterexample: with a previous valid snapshot on disk, the write
sequence exposes an intermediate truncated state that is empty, differs from
both the previous and the new complete document, and fails the JSON object
shape, so an interruption between the truncation and the write leaves an
unparseable snapshot file. -/
theorem ecriture_non_atomique :
    etatsObservables
        (serialiserSnapshot ⟨"2024-01-01T00:00:00Z", some "S1", some "Seance 1", []⟩)
        (sauvegarder_resultats "2024-02-01T00:00:00Z" [] (some "S2") (some "Seance 2"))
      = [serialiserSnapshot ⟨"2024-01-01T00:00:00Z", some "S1", some "Seance 1", []⟩,
         "",
         serialiserSnapshot ⟨"2024-02-01T00:00:00Z", some "S2", some "Seance 2", []⟩]
    ∧ estDocumentObjet "" = false
    ∧ estDocumentObjet
        (serialiserSnapshot ⟨"2024-01-01T00:00:00Z", some "S1", some "Seance 1", []⟩) = true
    ∧ estDocumentObjet
        (serialiserSnapshot ⟨"2024-02-01T00:00:00Z", some "S2", some "Seance 2", []⟩) = true
    ∧ "" ≠ serialiserSnapshot ⟨"2024-01-01T00:00:00Z", some "S1", some "Seance 1", []⟩
    ∧ "" ≠ serialiserSnapshot ⟨"2024-02-01T00:00:00Z", some "S2", some "Seance 2", []⟩ := by
  refine ⟨rfl, by decide, by decide, by decide, by decide, by decide⟩

/-- Python truthiness of an optional session identifier string: None and the
empty string are falsy (the test if not seance_id at line 210 of
extraire_deliberations.py and the first conjunct at line 78 of
pipeline_journalistique.py). -/
def estVraiOptChaine : Option String → Bool
  | none => false
  | some s => !(s == "")

/-- Decoding of a JSON value read back from the snapshot into the Python
value compared with the detected identifier: a JSON string is that string, a
JSON null is None. -/
def pyChaine : Option Json → Option String
  | some (.str s) => some s
  | _ => none

/-- On every file written by sauvegarder_resultats, charger_derniere_seance
returns exactly the stored session id and name (decoded to Python values). -/
theorem chargerSnap_coherent (s : Snapshot) :
    charger_derniere_seance (.contenu (versJson s))
      = .ok (some (jsonDeOpt s.seanceId), some (jsonDeOpt s.seanceNom))
    ∧ pyChaine (some (jsonDeOpt s.seanceId)) = s.seanceId
    ∧ pyChaine (some (jsonDeOpt s.seanceNom)) = s.seanceNom := by
  refine ⟨charger_sur_snapshot s, ?_, ?_⟩
  · cases s.seanceId with
    | none => rfl
    | some x => rfl
  · cases s.seanceNom with
    | none => rfl
    | some x => rfl

/-- charger_derniere_seance as it behaves on the file states the pipeline
itself produces: an absent file or a previously written snapshot (see
chargerSnap_coherent for the correspondence with the full JSON reader). -/
def chargerSnap : Option Snapshot → Option String × Option String
  | none => (none, none)
  | some s => (s.seanceId, s.seanceNom)

/-- The external world one pipeline run observes: the pair the session
detection returns when its fetch succeeds (the upstream is unchanged between
the orchestrator call at line 76 of pipeline_journalistique.py and the call
at line 208 of extraire_deliberations.py inside the extraction script), the
listing pages the server serves, the item pages per URL, and the clock value
datetime.utcnow produces. -/
structure Monde where
  detection : Option String × Option String
  pagesListe : List (Telechargement (List Carte))
  contenus : String → Telechargement PageDelib
  maintenant : String

/-- Terminal situation of one pipeline run: skipped (no new session), stored
(a snapshot was written), or terminated without writing anything. -/
inductive EtatPipeline where
  | skipped
  | stored
  | abandonne
deriving DecidableEq

/-- Outcome of one pipeline run: the terminal situation, the snapshot file
after the run, and bookkeeping of the network activity performed after the
orchestrator has taken its skip decision: the detection fetch of the
extraction script, the listing-page fetches, the item fetches, and whether
the Link Harvester ran at all. -/
structure ResultatPipeline where
  etat : EtatPipeline
  fichier : Option Snapshot
  appelsDetectionScript : Nat
  pagesVisitees : Nat
  elementsExtraits : Nat
  recolteuseInvoquee : Bool
deriving DecidableEq

/-- main of extraire_deliberations.py, lines 199-241, run as the extraction
script: it performs its own detection fetch (line 208), returns without
harvesting when the detected identifier is falsy (lines 210-212), returns
without saving when the harvest produced zero links (lines 217-219), and
otherwise extracts every link in order and writes the snapshot (lines
225-233). -/
def extraire_deliberations_main (m : Monde) (fichier : Option Snapshot) : ResultatPipeline :=
  if estVraiOptChaine m.detection.1 = false then
    ⟨.abandonne, fichier, 1, 0, 0, false⟩
  else
    let r := extraire_liens_deliberations m.pagesListe
    if r.liens = [] then ⟨.abandonne, fichier, 1, r.visites, 0, true⟩
    else
      ⟨.stored,
       some ⟨m.maintenant, m.detection.1, m.detection.2,
             phaseExtraction r.liens m.contenus⟩,
       1, r.visites, r.liens.length, true⟩

/-- main of pipeline_journalistique.py, lines 71-92, for a run without
skip-extraction: read the stored session, detect the current one, and when
the detected identifier is truthy, equal to the stored one and force was not
passed, skip; otherwise launch the extraction script (which does not receive
the force flag). The analysis subprocess of lines 94-109 only consumes the
snapshot and is out of scope. -/
def pipeline_journalistique_main (m : Monde) (force : Bool) (fichier : Option Snapshot) :
    ResultatPipeline :=
  let vue := chargerSnap fichier
  let nouv := m.detection
  if estVraiOptChaine nouv.1 = true ∧ vue.1 = nouv.1 ∧ force = false then
    ⟨.skipped, fichier, 0, 0, 0, false⟩
  else
    extraire_deliberations_main m fichier

theorem pipeline_saute (m : Monde) (f : Option Snapshot) (s : String)
    (h1 : m.detection.1 = some s) (h2 : s ≠ "")
    (h3 : (chargerSnap f).1 = some s) :
    pipeline_journalistique_main m false f = ⟨.skipped, f, 0, 0, 0, false⟩ := by
  have c1 : estVraiOptChaine m.detection.1 = true := by
    rw [h1]
    simp [estVraiOptChaine, h2]
  have c2 : (chargerSnap f).1 = m.detection.1 := by rw [h1, h3]
  simp only [pipeline_journalistique_main]
  rw [if_pos ⟨c1, c2, trivial⟩]

theorem pipeline_stockage (m : Monde) (force : Bool) (f : Option Snapshot)
    (h : (pipeline_journalistique_main m force f).etat = .stored) :
    ∃ s : String, m.detection.1 = some s ∧ s ≠ ""
      ∧ (pipeline_journalistique_main m force f).fichier
        = some ⟨m.maintenant, m.detection.1, m.detection.2,
                phaseExtraction (extraire_liens_deliberations m.pagesListe).liens m.contenus⟩ := by
  by_cases hs : estVraiOptChaine m.detection.1 = true
      ∧ (chargerSnap f).1 = m.detection.1 ∧ force = false
  · simp only [pipeline_journalistique_main, if_pos hs] at h
    exact absurd h (by simp)
  · simp only [pipeline_journalistique_main, if_neg hs] at h ⊢
    by_cases hd : estVraiOptChaine m.detection.1 = false
    · simp only [extraire_deliberations_main, if_pos hd] at h
      exact absurd h (by simp)
    · have hd2 : estVraiOptChaine m.detection.1 = true := by
        cases hb : estVraiOptChaine m.detection.1
        · exact absurd hb hd
        · rfl
      obtain ⟨s, hsome⟩ : ∃ s, m.detection.1 = some s := by
        cases hm : m.detection.1 with
        | none => rw [hm] at hd2; exact absurd hd2 (by simp [estVraiOptChaine])
        | some s => exact ⟨s, rfl⟩
      have hne : s ≠ "" := by
        rw [hsome] at hd2
        simpa [estVraiOptChaine] using hd2
      by_cases hl : (extraire_liens_deliberations m.pagesListe).liens = []
      · simp only [extraire_deliberations_main, if_neg hd, if_pos hl] at h
        exact absurd h (by simp)
      · refine ⟨s, hsome, hne, ?_⟩
        simp only [extraire_deliberations_main, if_neg hd, if_neg hl]

/-- C1 (amended): when the detected session identifier is non-null,
non-empty and equal to the stored identifier and force is not set, the
orchestrator skips: no snapshot write, no extraction-script launch, no
listing or item fetch; consequently, whenever a run stores a snapshot, an
immediately following run against the unchanged upstream skips with zero
post-decision network fetches and an unchanged snapshot file. The claim as
stated, which only requires both identifiers non-null, is refuted by
saut_idempotent_contre: an empty detected identifier is non-null but falsy,
and the pipeline re-runs the extraction script. -/
theorem saut_idempotent (m : Monde) (f : Option Snapshot) :
    (∀ s : String, m.detection.1 = some s → s ≠ "" → (chargerSnap f).1 = some s →
      pipeline_journalistique_main m false f = ⟨.skipped, f, 0, 0, 0, false⟩)
    ∧ ((pipeline_journalistique_main m false f).etat = .stored →
      pipeline_journalistique_main m false (pipeline_journalistique_main m false f).fichier
        = ⟨.skipped, (pipeline_journalistique_main m false f).fichier, 0, 0, 0, false⟩) := by
  constructor
  · intro s h1 h2 h3
    exact pipeline_saute m f s h1 h2 h3
  · intro h
    obtain ⟨s, hd, hne, hf⟩ := pipeline_stockage m false f h
    apply pipeline_saute m _ s hd hne
    rw [hf]
    simp [chargerSnap, hd]

/-- A world whose detected session identifier is the empty string, equal to
the identifier stored in the snapshot: both are non-null. -/
def mondeIdVide : Monde :=
  ⟨(some "", some ""), [], fun _ => .erreur "indisponible", "2024-03-01T00:00:00Z"⟩

/-- The snapshot whose stored session identifier is the empty string. -/
def fichierIdVide : Option Snapshot :=
  some ⟨"2024-02-01T00:00:00Z", some "", some "", []⟩

/-- C1 counterexample: detected and stored identifiers are equal and
non-null (both the empty string) and force is not set, yet the run does not
skip: the empty identifier is falsy in Python, so the orchestrator launches
the extraction script, which performs a further detection fetch. -/
theorem saut_idempotent_contre :
    mondeIdVide.detection.1 = some ""
    ∧ (chargerSnap fichierIdVide).1 = mondeIdVide.detection.1
    ∧ (pipeline_journalistique_main mondeIdVide false fichierIdVide).etat ≠ EtatPipeline.skipped
    ∧ (pipeline_journalistique_main mondeIdVide false fichierIdVide).appelsDetectionScript = 1 := by
  decide

/-- A world with a fresh non-empty session and a one-link listing. -/
def mondeTemoin : Monde :=
  ⟨(some "S1", some "Seance 1"), [Telechargement.ok [⟨some "/d/1"⟩]],
   fun _ => Telechargement.ok ⟨some "Titre", some "Contenu"⟩, "2024-01-01T00:00:00Z"⟩

/-- Witness for saut_idempotent: after a first run of mondeTemoin stores a
snapshot, the second run against the unchanged world skips and leaves the
file untouched. -/
theorem saut_idempotent_temoin :
    pipeline_journalistique_main mondeTemoin false
        (pipeline_journalistique_main mondeTemoin false none).fichier
      = ⟨.skipped, (pipeline_journalistique_main mondeTemoin false none).fichier,
         0, 0, 0, false⟩ :=
  (saut_idempotent mondeTemoin none).2 (by decide)

/-- C3 (amended): when the detected identifier is truthy but the Link
Harvester produces zero links, the extraction script terminates without
writing anything: the snapshot file is unchanged, the state is not STORED,
and the last-session marker does not advance. The claim as stated, that an
empty harvest still ends in STORED with an empty record sequence persisted,
is refuted by recolte_vide_contre. -/
theorem recolte_vide_sans_stockage (m : Monde) (f : Option Snapshot)
    (h1 : estVraiOptChaine m.detection.1 = true)
    (h2 : (extraire_liens_deliberations m.pagesListe).liens = []) :
    extraire_deliberations_main m f
      = ⟨.abandonne, f, 1, (extraire_liens_deliberations m.pagesListe).visites, 0, true⟩ := by
  have hd : ¬ estVraiOptChaine m.detection.1 = false := by
    rw [h1]
    simp
  simp only [extraire_deliberations_main, if_neg hd, if_pos h2]

/-- A world with a truthy session whose listing first page has zero cards,
so the harvest returns zero links. -/
def mondeSansCartes : Monde :=
  ⟨(some "S1", some "Seance 1"), [Telechargement.ok []],
   fun _ => .erreur "indisponible", "2024-04-01T00:00:00Z"⟩

/-- C3 counterexample: the harvest yields zero links and the run terminates
with no snapshot written at all: the state is not STORED and the file stays
absent, so the last-session marker does not advance. -/
theorem recolte_vide_contre :
    (extraire_liens_deliberations mondeSansCartes.pagesListe).liens = []
    ∧ (pipeline_journalistique_main mondeSansCartes false none).etat ≠ EtatPipeline.stored
    ∧ (pipeline_journalistique_main mondeSansCartes false none).fichier = none := by
  decide

/-- Witness for recolte_vide_sans_stockage at the concrete empty-listing
world. -/
theorem recolte_vide_temoin :
    extraire_deliberations_main mondeSansCartes none
      = ⟨.abandonne, none, 1,
         (extraire_liens_deliberations mondeSansCartes.pagesListe).visites, 0, true⟩ :=
  recolte_vide_sans_stockage mondeSansCartes none (by decide) (by decide)

/-- A world in which the session detection finds no selected session while
the default listing does serve one card. -/
def mondeSansDetection : Monde :=
  ⟨(none, none), [Telechargement.ok [⟨some "/d/1"⟩]],
   fun _ => Telechargement.ok ⟨some "Titre", some "Contenu"⟩, "2024-05-01T00:00:00Z"⟩

/-- C5: when detection returns the null pair and force is not set, the
orchestrator does proceed past its skip test and launches the extraction
script (one further detection fetch), but the script returns at its
if-not-seance-id guard before calling the Link Harvester: zero listing pages
are fetched, the harvester never runs, and the run ends without storing.
This contradicts the claim, and also the messages the program itself prints
(line 34 of extraire_deliberations.py announces using the first card found,
line 85 of pipeline_journalistique.py announces that extraction will still
be attempted). -/
theorem detection_inconnue_bloque_recolte :
    (pipeline_journalistique_main mondeSansDetection false none).appelsDetectionScript = 1
    ∧ (pipeline_journalistique_main mondeSansDetection false none).recolteuseInvoquee = false
    ∧ (pipeline_journalistique_main mondeSansDetection false none).pagesVisitees = 0
    ∧ (pipeline_journalistique_main mondeSansDetection false none).etat
        = EtatPipeline.abandonne := by
  decide

